import Mathlib

/-!
Verification of the ZeroSight URL classification engine (src/app.py).

The engine is a pure function of its input string and static rule tables.
This file gives a shallow embedding of the Python source:

  - `pyStrip`, `pyLower` model the Python string methods strip and lower
    (lowercasing is modelled for ASCII letters, which is exact on every
    hostname and keyword the rule tables contain);
  - `urlsplitHostname` models the hostname extraction of
    urllib.parse.urlparse, including the ValueError raised on a bracket
    mismatch in the authority component, returned here as Except.error;
  - `parse_hostname`, `classify_link` and `api_check_link` are the
    translations of the functions of the same names, with the clock
    reading int(time.time()) passed as the explicit argument ts and
    the mutable score/reasons accumulation made explicit state that is
    threaded through the rule evaluators in source order;
  - `IP_RE_search` models re.search of the fixed pattern
    a dotted quad of 1 to 3 digit groups between word boundaries
    over ASCII word characters, and `portSearch` models re.search of
    a colon followed by two to five digits, whose existence is
    equivalent to a colon followed by at least two digits.
-/

/-- Python str.isspace / str.strip whitespace set (the Unicode
whitespace code points recognised by CPython for str.strip). -/
def pyIsSpace (c : Char) : Bool :=
  decide ((9 ≤ c.toNat ∧ c.toNat ≤ 13) ∨ c.toNat = 32 ∨
    (28 ≤ c.toNat ∧ c.toNat ≤ 31) ∨ c.toNat = 133 ∨ c.toNat = 160 ∨
    c.toNat = 5760 ∨ (8192 ≤ c.toNat ∧ c.toNat ≤ 8202) ∨
    c.toNat = 8232 ∨ c.toNat = 8233 ∨ c.toNat = 8239 ∨
    c.toNat = 8287 ∨ c.toNat = 12288)

/-- Model of Python str.strip with no argument. -/
def pyStrip (s : String) : String :=
  String.mk (((s.data.dropWhile pyIsSpace).reverse.dropWhile pyIsSpace).reverse)

/-- Model of Python str.lower (ASCII letters; the rule tables and every
URL component the rules compare against are ASCII). -/
def pyLower (s : String) : String :=
  String.mk (s.data.map Char.toLower)

/-- Model of Python str.split with a separator class: cut at every
character satisfying p, keeping empty pieces, as str.split with an
explicit separator and re.split both do. -/
def splitOnPred (p : Char → Bool) : List Char → List (List Char)
  | [] => [[]]
  | c :: cs =>
    let r := splitOnPred p cs
    if p c then [] :: r else (c :: r.headD []) :: r.tail

/-- Model of the Python substring test: sub in hay. -/
def containsSub (hay sub : String) : Bool :=
  decide (sub.data <:+: hay.data)

/-- Model of Python str.endswith. -/
def endsWithStr (s suf : String) : Bool :=
  decide (suf.data <:+ s.data)

/-- Characters CPython urlsplit allows inside a URL scheme. -/
def schemeChar (c : Char) : Bool :=
  c.isAlpha || c.isDigit || c == '+' || c == '-' || c == '.'

/-- Scheme removal step of CPython urlsplit: when the text before the
first colon is a well-formed scheme (leading ASCII letter, scheme
characters only), drop it together with the colon. -/
def removeScheme (l : List Char) : List Char :=
  match l.findIdx? (fun c => c == ':') with
  | some i =>
    if 0 < i ∧ (l.headD ' ').isAlpha ∧ (l.take i).all schemeChar then
      l.drop (i + 1)
    else l
  | none => l

/-- Netloc extraction of CPython urlsplit: the authority runs up to the
first slash, question mark or hash. -/
def splitNetloc (l : List Char) : List Char :=
  l.takeWhile (fun c => !(c == '/' || c == '?' || c == '#'))

/-- Part of the netloc after the last at sign (CPython rpartition):
credentials are stripped from the authority. -/
def afterLastAt (netloc : List Char) : List Char :=
  (netloc.reverse.takeWhile (fun c => !(c == '@'))).reverse

/-- Hostname of a netloc, as computed by the hostname property of a
CPython SplitResult: strip credentials, then either take the bracketed
IPv6 literal or cut at the port colon. -/
def hostnameOfNetloc (netloc : List Char) : List Char :=
  let hostinfo := afterLastAt netloc
  if hostinfo.contains '[' then
    ((hostinfo.dropWhile (fun c => !(c == '['))).drop 1).takeWhile (fun c => !(c == ']'))
  else hostinfo.takeWhile (fun c => !(c == ':'))

/-- Model of the hostname component computed by urllib.parse.urlparse.
CPython first strips leading and trailing C0 control or space
characters, removes every tab, carriage return and line feed, splits a
well-formed scheme off, and reads the authority only after a double
slash. A netloc containing exactly one of the two IPv6 brackets makes
urlsplit raise ValueError, modelled as Except.error; an absent or empty
hostname is the empty list, matching the (parsed.hostname or "")
coalescing at the call site. -/
def urlsplitHostname (input : List Char) : Except String (List Char) :=
  let url := ((input.dropWhile (fun c => decide (c.toNat ≤ 32))).reverse.dropWhile
    (fun c => decide (c.toNat ≤ 32))).reverse
  let url := url.filter (fun c => !(c == '\t' || c == '\r' || c == '\n'))
  let url := removeScheme url
  if url.take 2 = ['/', '/'] then
    let netloc := splitNetloc (url.drop 2)
    if (netloc.contains '[' && !(netloc.contains ']')) ||
        (netloc.contains ']' && !(netloc.contains '[')) then
      Except.error ("Invalid IPv6 URL")
    else Except.ok (hostnameOfNetloc netloc)
  else Except.ok []

/-- Scheme defaulting of parse_hostname: ensure a scheme separator is
present before structural parsing. -/
def withSchemeOf (u : String) : String :=
  if containsSub u ("://") then u else ("https://") ++ u

/-- Translation of parse_hostname (src/app.py lines 40 to 51): trim,
return empty on empty input, otherwise structurally parse with a
defaulted scheme, and on a parse failure fall back to the text before
the first slash, lowercased; the head of str.split on a slash is
exactly the prefix before the first slash. -/
def parse_hostname (url : String) : String :=
  let u := pyStrip url
  if u = ("") then ("")
  else
    match urlsplitHostname (withSchemeOf u).data with
    | Except.ok h => pyLower (String.mk h)
    | Except.error _ => pyLower (String.mk (u.data.takeWhile (fun c => !(c == '/'))))

/-- ASCII word character, as in the word boundary class of re. -/
def isWordChar (c : Char) : Bool :=
  c.isAlphanum || c == '_'

/-- Length of the maximal leading digit run and the remainder. -/
def digitRun : List Char → Nat × List Char
  | [] => (0, [])
  | c :: cs =>
    if c.isDigit then
      let p := digitRun cs
      (p.1 + 1, p.2)
    else (0, c :: cs)

/-- One group of the IP pattern: one to three digits followed by a
literal dot, returning the remainder after the dot. A backtracking
match of the group exists exactly when the maximal digit run has
length one to three and is followed by the dot, because consuming
fewer digits leaves a digit where the dot is required. -/
def ipGroupDot (l : List Char) : Option (List Char) :=
  let p := digitRun l
  if 1 ≤ p.1 ∧ p.1 ≤ 3 then
    match p.2 with
    | '.' :: rest => some rest
    | _ => none
  else none

/-- Word boundary after the match: end of input or a non word char. -/
def ipBoundaryAfter : List Char → Bool
  | [] => true
  | c :: _ => !(isWordChar c)

/-- Final group of the IP pattern: one to three digits followed by a
word boundary. As every digit is a word character, a backtracking match
exists exactly when the maximal digit run has length one to three and
the remainder opens with a non word character or is empty. -/
def ipLastGroup (l : List Char) : Bool :=
  let p := digitRun l
  decide (1 ≤ p.1) && decide (p.1 ≤ 3) && ipBoundaryAfter p.2

/-- Match of the IP pattern body at the head of the list: three
digit-dot groups then a final digit group with closing boundary. -/
def ipMatchAt (l : List Char) : Bool :=
  match ipGroupDot l with
  | none => false
  | some l1 =>
    match ipGroupDot l1 with
    | none => false
    | some l2 =>
      match ipGroupDot l2 with
      | none => false
      | some l3 => ipLastGroup l3

/-- Scan of the search: the flag records whether the previous character
was a word character, so the opening word boundary holds exactly when
the flag is false. -/
def ipSearchAux : Bool → List Char → Bool
  | _, [] => false
  | prevWord, c :: cs =>
    (!prevWord && ipMatchAt (c :: cs)) || ipSearchAux (isWordChar c) cs

/-- Model of IP_RE.search (src/app.py line 35): a dotted quad of one to
three ASCII digit groups between word boundaries occurs somewhere in
the string. -/
def IP_RE_search (s : String) : Bool :=
  ipSearchAux false s.data

/-- Two leading digits. -/
def twoDigits : List Char → Bool
  | a :: b :: _ => a.isDigit && b.isDigit
  | [] => false
  | [_] => false

/-- Model of re.search of a colon followed by two to five digits
(src/app.py line 79): such a match exists exactly when some colon is
followed by at least two digits. -/
def portSearch : List Char → Bool
  | [] => false
  | c :: cs => (c == ':' && twoDigits cs) || portSearch cs

/-- Rule table (src/app.py lines 23 to 26). -/
def SUSPICIOUS_HOSTINGS : List String :=
  ["trycloudflare.com", "workers.dev", "pages.dev", "vercel.app",
   "netlify.app", "ngrok.io", "herokuapp.com", "github.io", "pagekite.me"]

/-- Rule table (src/app.py lines 28 to 31). -/
def BRAND_TOKENS : List String :=
  ["instagram", "paypal", "google", "facebook", "amazon", "microsoft",
   "sbi", "hdfc", "icici", "bank", "upi", "gmail", "otp"]

/-- Rule table (src/app.py line 33). -/
def SHORTENERS : List String :=
  ["bit.ly", "tinyurl", "t.co", "is.gd", "rb.gy", "ow.ly"]

/-- Rule table (src/app.py line 131). -/
def PHISH_KEYWORDS : List String :=
  ["verify", "login", "reset", "auth", "secure", "confirm", "payment",
   "account", "signin", "password", "otp"]

/-- Full subdomain portion: all labels except the last two, joined by
dots (src/app.py line 93). -/
def subdomainOf (labels : List String) : String :=
  String.intercalate (".") (labels.dropLast.dropLast)

/-- Tokens of the subdomain: split on hyphen, underscore and dot,
keeping nonempty pieces (src/app.py line 103). -/
def tokensOf (sub : String) : List String :=
  ((splitOnPred (fun c => c == '-' || c == '_' || c == '.') sub.data).map String.mk).filter
    (fun t => t != (""))

/-- Second level domain label (src/app.py line 109). -/
def sldOf (labels : List String) : String :=
  if 2 ≤ labels.length then labels.getD (labels.length - 2) ("") else ("")

/-- Rule 1 (src/app.py lines 73 to 75): direct IP in host, +40. -/
def rule_ip (host : String) : Option (Int × String) :=
  if IP_RE_search host then
    some (40, ("Direct IP address used in host (not a normal domain)"))
  else none

/-- Rule 2 (src/app.py lines 79 to 81): explicit port in the raw URL,
+12. -/
def rule_port (url : String) : Option (Int × String) :=
  if portSearch url.data then
    some (12, ("Explicit port present in URL (uncommon for legitimate sites)"))
  else none

/-- Rule 3 (src/app.py lines 84 to 88): host equals or is a subdomain
of an ephemeral hosting platform; first match only, +35. -/
def rule_ephemeral (host : String) : Option (Int × String) :=
  (SUSPICIOUS_HOSTINGS.find? (fun eh => host == eh || endsWithStr host ((".") ++ eh))).map
    (fun eh => (35, ("Hosted on ephemeral/third-party platform: ") ++ eh))

/-- Rule 4a (src/app.py lines 95 to 97): at least three labels and a
subdomain longer than 30 characters, +15. -/
def rule_longsub (labels : List String) : Option (Int × String) :=
  if 3 ≤ labels.length ∧ 30 < (subdomainOf labels).length then
    some (15, ("Very long subdomain (unusually long host label)"))
  else none

/-- Rule 4b (src/app.py lines 99 to 101): at least two hyphens in the
subdomain, +12. -/
def rule_hyphens (labels : List String) : Option (Int × String) :=
  if 3 ≤ labels.length ∧ 2 ≤ (subdomainOf labels).data.count '-' then
    some (12, ("Multiple hyphens in subdomain (common in phishing hosts)"))
  else none

/-- Rule 4c (src/app.py lines 103 to 106): at least three nonempty
tokens in the subdomain, +18. -/
def rule_tokens (labels : List String) : Option (Int × String) :=
  if 3 ≤ labels.length ∧ 3 ≤ (tokensOf (subdomainOf labels)).length then
    some (18, ("Multi-word / token-rich subdomain (likely not a normal brand hostname)"))
  else none

/-- Rule 4d (src/app.py lines 109 to 116): a brand token occurs in the
lowercased subdomain and differs from the second level domain label;
first match only, +40. -/
def rule_brand (labels : List String) : Option (Int × String) :=
  if 3 ≤ labels.length then
    (BRAND_TOKENS.find? (fun b =>
        containsSub (pyLower (subdomainOf labels)) b && b != sldOf labels)).map
      (fun b => (40, ("Brand impersonation detected: \x27") ++ b ++
        ("\x27 appears in subdomain while parent domain is not \x27") ++ b ++ ("\x27")))
  else none

/-- Rule 5 (src/app.py lines 119 to 121): punycode marker in host,
+25. -/
def rule_punycode (host : String) : Option (Int × String) :=
  if containsSub host ("xn--") then
    some (25, ("Punycode/IDN detected (possible homoglyph / homograph attack)"))
  else none

/-- Rule 6 (src/app.py lines 124 to 128): a known shortener occurs in
the lowercased raw URL; first match only, +30. -/
def rule_shortener (url : String) : Option (Int × String) :=
  (SHORTENERS.find? (fun sh => containsSub (pyLower url) sh)).map
    (fun sh => (30, ("Uses known link shortener: ") ++ sh))

/-- Rule 7 (src/app.py lines 132 to 136): a phishing keyword occurs in
the lowercased raw URL; first match only, +15. -/
def rule_keyword (url : String) : Option (Int × String) :=
  (PHISH_KEYWORDS.find? (fun k => containsSub (pyLower url) k)).map
    (fun k => (15, ("Contains phishing-related keyword: \x27") ++ k ++ ("\x27")))

/-- The result record returned by classify_link, with the clock reading
as the ts field. -/
structure ClassificationResult where
  url : String
  host : String
  score : Int
  level : String
  reasons : List String
  ts : Int

/-- Threshold map of src/app.py lines 141 to 145. -/
def levelOf (score : Int) : String :=
  if 70 ≤ score then ("HIGH") else if 35 ≤ score then ("MEDIUM") else ("SAFE")

/-- One accumulation step: a firing rule adds its delta to the score
and appends its reason; a silent rule leaves the state unchanged. -/
def applyRule (st : Int × List String) (res : Option (Int × String)) : Int × List String :=
  match res with
  | some dm => (st.1 + dm.1, st.2 ++ [dm.2])
  | none => st

/-- The rule evaluations of classify_link in source order: rules 1, 2,
3, 4a, 4b, 4c, 4d, 5, 6, 7, each evaluated on the normalized host, the
label list, or the raw URL exactly as in the source. -/
def ruleResults (url : String) : List (Option (Int × String)) :=
  let host := parse_hostname url
  let labels := if host = ("") then []
    else (splitOnPred (fun c => c == '.') host.data).map String.mk
  [rule_ip host, rule_port url, rule_ephemeral host,
   rule_longsub labels, rule_hyphens labels, rule_tokens labels, rule_brand labels,
   rule_punycode host, rule_shortener url, rule_keyword url]

/-- Translation of classify_link (src/app.py lines 59 to 154): the
sequential score and reasons updates of the source are the state
threaded through the rule evaluations in source order; the score is
then clamped to the closed interval 0 to 100 and mapped to a level. -/
def classify_link (url : String) (ts : Int) : ClassificationResult :=
  let host := parse_hostname url
  let st := List.foldl applyRule (0, []) (ruleResults url)
  let score := max 0 (min 100 st.1)
  let level := ("SAFE")
  let level := if 70 ≤ score then ("HIGH") else if 35 ≤ score then ("MEDIUM") else level
  { url := url, host := host, score := score, level := level, reasons := st.2, ts := ts }

/-- The contributions of the rules that fired, in source order. -/
def firedContribs (url : String) : List (Int × String) :=
  (ruleResults url).filterMap id

/-- Score contribution of one rule evaluation. -/
def optDelta (o : Option (Int × String)) : Int :=
  match o with
  | some dm => dm.1
  | none => 0

/-- Response of the check_link endpoint: a JSON client error with an
HTTP status, or the classification result. -/
inductive ApiResponse where
  | clientError (message : String) (status : Nat)
  | ok (result : ClassificationResult)

/-- Translation of api_check_link (src/app.py lines 163 to 177): read
the url field of the payload, defaulting to the empty string when the
field or the whole JSON body is missing, strip it, reject a blank value
with a 400 error, and otherwise classify the stripped value. -/
def api_check_link (urlField : Option String) (ts : Int) : ApiResponse :=
  let url := pyStrip (urlField.getD (""))
  if url = ("") then ApiResponse.clientError ("missing url") 400
  else ApiResponse.ok (classify_link url ts)

theorem strData_append (s t : String) : (s ++ t).data = s.data ++ t.data := by
  cases s
  cases t
  rfl

theorem pyLower_data (s : String) : (pyLower s).data = s.data.map Char.toLower := rfl

theorem foldl_applyRule (l : List (Option (Int × String))) (s : Int) (rs : List String) :
    List.foldl applyRule (s, rs) l =
      (s + ((l.filterMap id).map Prod.fst).sum, rs ++ (l.filterMap id).map Prod.snd) := by
  induction l generalizing s rs with
  | nil => simp
  | cons o t ih =>
    cases o with
    | none => simp [applyRule, ih]
    | some dm => simp [applyRule, ih, add_assoc]

theorem classify_link_eq (url : String) (ts : Int) :
    classify_link url ts =
      { url := url, host := parse_hostname url,
        score := max 0 (min 100 (((firedContribs url).map Prod.fst).sum)),
        level := levelOf (max 0 (min 100 (((firedContribs url).map Prod.fst).sum))),
        reasons := (firedContribs url).map Prod.snd, ts := ts } := by
  simp only [classify_link, firedContribs]
  rw [foldl_applyRule]
  simp [levelOf]

theorem classify_score (url : String) (ts : Int) :
    (classify_link url ts).score = max 0 (min 100 (((firedContribs url).map Prod.fst).sum)) := by
  rw [classify_link_eq]

theorem classify_reasons (url : String) (ts : Int) :
    (classify_link url ts).reasons = (firedContribs url).map Prod.snd := by
  rw [classify_link_eq]

theorem filterMap_fst_sum (l : List (Option (Int × String))) :
    ((l.filterMap id).map Prod.fst).sum = (l.map optDelta).sum := by
  induction l with
  | nil => simp
  | cons o t ih => cases o <;> simp [optDelta, ih]

theorem optPos_rule_ip (host : String) (dm : Int × String) (h : rule_ip host = some dm) :
    0 < dm.1 := by
  rw [rule_ip] at h
  split at h
  · injection h with h1
    rw [← h1]
    norm_num
  · exact absurd h (by simp)

theorem optPos_rule_port (url : String) (dm : Int × String) (h : rule_port url = some dm) :
    0 < dm.1 := by
  rw [rule_port] at h
  split at h
  · injection h with h1
    rw [← h1]
    norm_num
  · exact absurd h (by simp)

theorem optPos_rule_ephemeral (host : String) (dm : Int × String)
    (h : rule_ephemeral host = some dm) : 0 < dm.1 := by
  rw [rule_ephemeral] at h
  obtain ⟨eh, _, hfb⟩ := Option.map_eq_some'.mp h
  rw [← hfb]
  norm_num

theorem optPos_rule_longsub (labels : List String) (dm : Int × String)
    (h : rule_longsub labels = some dm) : 0 < dm.1 := by
  rw [rule_longsub] at h
  split at h
  · injection h with h1
    rw [← h1]
    norm_num
  · exact absurd h (by simp)

theorem optPos_rule_hyphens (labels : List String) (dm : Int × String)
    (h : rule_hyphens labels = some dm) : 0 < dm.1 := by
  rw [rule_hyphens] at h
  split at h
  · injection h with h1
    rw [← h1]
    norm_num
  · exact absurd h (by simp)

theorem optPos_rule_tokens (labels : List String) (dm : Int × String)
    (h : rule_tokens labels = some dm) : 0 < dm.1 := by
  rw [rule_tokens] at h
  split at h
  · injection h with h1
    rw [← h1]
    norm_num
  · exact absurd h (by simp)

theorem optPos_rule_brand (labels : List String) (dm : Int × String)
    (h : rule_brand labels = some dm) : 0 < dm.1 := by
  rw [rule_brand] at h
  split at h
  · obtain ⟨b, _, hfb⟩ := Option.map_eq_some'.mp h
    rw [← hfb]
    norm_num
  · exact absurd h (by simp)

theorem optPos_rule_punycode (host : String) (dm : Int × String)
    (h : rule_punycode host = some dm) : 0 < dm.1 := by
  rw [rule_punycode] at h
  split at h
  · injection h with h1
    rw [← h1]
    norm_num
  · exact absurd h (by simp)

theorem optPos_rule_shortener (url : String) (dm : Int × String)
    (h : rule_shortener url = some dm) : 0 < dm.1 := by
  rw [rule_shortener] at h
  obtain ⟨sh, _, hfb⟩ := Option.map_eq_some'.mp h
  rw [← hfb]
  norm_num

theorem optPos_rule_keyword (url : String) (dm : Int × String)
    (h : rule_keyword url = some dm) : 0 < dm.1 := by
  rw [rule_keyword] at h
  obtain ⟨k, _, hfb⟩ := Option.map_eq_some'.mp h
  rw [← hfb]
  norm_num

theorem fired_pos (url : String) : ∀ dm ∈ firedContribs url, 0 < dm.1 := by
  intro dm hdm
  rw [firedContribs, List.mem_filterMap] at hdm
  obtain ⟨o, ho, hod⟩ := hdm
  rw [id_eq] at hod
  subst hod
  simp only [ruleResults, List.mem_cons, List.not_mem_nil, or_false] at ho
  rcases ho with h | h | h | h | h | h | h | h | h | h
  · exact optPos_rule_ip _ dm h.symm
  · exact optPos_rule_port _ dm h.symm
  · exact optPos_rule_ephemeral _ dm h.symm
  · exact optPos_rule_longsub _ dm h.symm
  · exact optPos_rule_hyphens _ dm h.symm
  · exact optPos_rule_tokens _ dm h.symm
  · exact optPos_rule_brand _ dm h.symm
  · exact optPos_rule_punycode _ dm h.symm
  · exact optPos_rule_shortener _ dm h.symm
  · exact optPos_rule_keyword _ dm h.symm

/-- C1: for every string input url, the score field of
classify_link(url) satisfies 0 <= score <= 100, and the level field is
exactly the threshold function of the score: at least 70 gives HIGH, at
least 35 gives MEDIUM, and anything lower gives SAFE. -/
theorem c1_score_range_and_level (url : String) (ts : Int) :
    0 ≤ (classify_link url ts).score ∧ (classify_link url ts).score ≤ 100 ∧
      (classify_link url ts).level = levelOf (classify_link url ts).score := by
  refine ⟨?_, ?_, ?_⟩
  · rw [classify_score]
    exact le_max_left 0 _
  · rw [classify_score]
    exact max_le (by norm_num) (min_le_left _ _)
  · rfl

/-- C4: classify_link is deterministic: two calls on the same url and
any two clock readings agree on the host, score, level and reasons
fields. -/
theorem c4_deterministic (url : String) (t1 t2 : Int) :
    (classify_link url t1).host = (classify_link url t2).host ∧
      (classify_link url t1).score = (classify_link url t2).score ∧
      (classify_link url t1).level = (classify_link url t2).level ∧
      (classify_link url t1).reasons = (classify_link url t2).reasons :=
  ⟨rfl, rfl, rfl, rfl⟩

/-- C7: the score is the clamp to 0..100 of the sum of the deltas of
the rules that fired, the reasons list is exactly the reason of each
fired rule in the fixed evaluation order 1, 2, 3, 4a, 4b, 4c, 4d, 5, 6,
7 (firedContribs filters the per-rule evaluations in that order, each
rule contributing at most one entry), and its length is the number of
rules that fired. -/
theorem c7_aggregation_invariant (url : String) (ts : Int) :
    (classify_link url ts).score = max 0 (min 100 (((firedContribs url).map Prod.fst).sum)) ∧
      (classify_link url ts).reasons = (firedContribs url).map Prod.snd ∧
      (classify_link url ts).reasons.length = (firedContribs url).length := by
  refine ⟨classify_score url ts, classify_reasons url ts, ?_⟩
  rw [classify_reasons]
  simp

/-- C10: the reasons list is empty exactly when the score is zero:
every rule contributes a strictly positive delta together with its
reason, so the raw sum is nonnegative and the lower bound of the clamp
is never the active bound. -/
theorem c10_reasons_empty_iff_score_zero (url : String) (ts : Int) :
    ((classify_link url ts).reasons = [] ↔ (classify_link url ts).score = 0) ∧
      (classify_link url ts).score = min 100 (((firedContribs url).map Prod.fst).sum) := by
  have hpos : ∀ dm ∈ firedContribs url, 0 < dm.1 := fired_pos url
  have hmem : ∀ x ∈ (firedContribs url).map Prod.fst, 0 < x := by
    intro x hx
    obtain ⟨dm, hdm, hfx⟩ := List.mem_map.mp hx
    rw [← hfx]
    exact hpos dm hdm
  have hnn : 0 ≤ ((firedContribs url).map Prod.fst).sum :=
    List.sum_nonneg (fun x hx => le_of_lt (hmem x hx))
  have hclamp : (classify_link url ts).score =
      min 100 (((firedContribs url).map Prod.fst).sum) := by
    rw [classify_score]
    exact max_eq_right (le_min (by norm_num) hnn)
  refine ⟨⟨?_, ?_⟩, hclamp⟩
  · intro hre
    have hfe : firedContribs url = [] := by
      have hcr := classify_reasons url ts
      rw [hre] at hcr
      exact List.map_eq_nil_iff.mp hcr.symm
    rw [hclamp, hfe]
    norm_num
  · intro hs0
    by_contra hne
    have hfne : firedContribs url ≠ [] := by
      intro hfe
      exact hne (by rw [classify_reasons, hfe]; rfl)
    have hsum : 0 < ((firedContribs url).map Prod.fst).sum := by
      refine List.sum_pos _ hmem ?_
      simpa using hfne
    rw [hclamp] at hs0
    have hlt : (0 : Int) < min 100 (((firedContribs url).map Prod.fst).sum) :=
      lt_min (by norm_num) hsum
    omega

theorem score_eq_optDelta (url : String) (ts : Int) :
    (classify_link url ts).score = max 0 (min 100 (((ruleResults url).map optDelta).sum)) := by
  rw [classify_score, firedContribs, filterMap_fst_sum]

theorem twoDigits_append (l t : List Char) (h : twoDigits l = true) :
    twoDigits (l ++ t) = true := by
  match l with
  | [] => exact absurd h (by simp [twoDigits])
  | [a] => exact absurd h (by simp [twoDigits])
  | a :: b :: rest => simpa [twoDigits] using h

theorem portSearch_append (l t : List Char) (h : portSearch l = true) :
    portSearch (l ++ t) = true := by
  induction l with
  | nil => exact absurd h (by simp [portSearch])
  | cons c cs ih =>
    simp only [portSearch, Bool.or_eq_true, Bool.and_eq_true] at h
    rw [List.cons_append]
    simp only [portSearch, Bool.or_eq_true, Bool.and_eq_true]
    rcases h with ⟨hc, hd⟩ | h2
    · exact Or.inl ⟨hc, twoDigits_append cs t hd⟩
    · exact Or.inr (ih h2)

theorem containsSub_lower_append (u s k : String)
    (h : containsSub (pyLower u) k = true) : containsSub (pyLower (u ++ s)) k = true := by
  rw [containsSub, decide_eq_true_eq] at h ⊢
  obtain ⟨a, b, hab⟩ := h
  refine ⟨a, b ++ s.data.map Char.toLower, ?_⟩
  have hdata : (pyLower (u ++ s)).data = (pyLower u).data ++ s.data.map Char.toLower := by
    rw [pyLower_data, pyLower_data, strData_append, List.map_append]
  rw [hdata, ← hab]
  simp [List.append_assoc]

theorem findSome_mono (L : List String) (p q : String → Bool)
    (hpq : ∀ x, p x = true → q x = true) (h : (L.find? p).isSome = true) :
    (L.find? q).isSome = true := by
  induction L with
  | nil => simp [List.find?] at h
  | cons a t ih =>
    cases hqa : q a with
    | true => simp [List.find?, hqa]
    | false =>
      have hpa : p a = false := by
        cases hpa : p a with
        | false => rfl
        | true => exact absurd (hpq a hpa) (by rw [hqa]; simp)
      simp only [List.find?, hpa] at h
      simp only [List.find?, hqa]
      exact ih h

theorem optDelta_find_map (L : List String) (p : String → Bool) (c : Int)
    (f : String → String) :
    optDelta ((L.find? p).map (fun x => (c, f x))) =
      if (L.find? p).isSome then c else 0 := by
  cases h : L.find? p <;> simp [optDelta, h]

theorem find_rule_mono (L : List String) (p q : String → Bool) (c : Int)
    (f g : String → String) (hc : 0 ≤ c) (hpq : ∀ x, p x = true → q x = true) :
    optDelta ((L.find? p).map (fun x => (c, f x))) ≤
      optDelta ((L.find? q).map (fun x => (c, g x))) := by
  rw [optDelta_find_map, optDelta_find_map]
  by_cases hp : (L.find? p).isSome = true
  · rw [if_pos hp, if_pos (findSome_mono L p q hpq hp)]
  · rw [if_neg hp]
    split
    · exact hc
    · exact le_refl 0

theorem rule_port_mono (u s : String) :
    optDelta (rule_port u) ≤ optDelta (rule_port (u ++ s)) := by
  rw [rule_port, rule_port]
  by_cases hp : portSearch u.data = true
  · have hq : portSearch (u ++ s).data = true := by
      rw [strData_append]
      exact portSearch_append _ _ hp
    rw [if_pos hp, if_pos hq]
  · rw [if_neg hp]
    split
    · simp [optDelta]
    · exact le_refl _

theorem rule_shortener_mono (u s : String) :
    optDelta (rule_shortener u) ≤ optDelta (rule_shortener (u ++ s)) := by
  rw [rule_shortener, rule_shortener]
  exact find_rule_mono SHORTENERS _ _ 30 _ _ (by norm_num)
    (fun x hx => containsSub_lower_append u s x hx)

theorem rule_keyword_mono (u s : String) :
    optDelta (rule_keyword u) ≤ optDelta (rule_keyword (u ++ s)) := by
  rw [rule_keyword, rule_keyword]
  exact find_rule_mono PHISH_KEYWORDS _ _ 15 _ _ (by norm_num)
    (fun x hx => containsSub_lower_append u s x hx)

/-- C8: appending a path suffix that leaves the parsed hostname
unchanged never decreases the score: every host-based rule evaluates
identically, and the three rules reading the raw URL (explicit port,
shortener, phishing keyword) are monotone under appending text. -/
theorem c8_score_monotone_append (u s : String) (ts : Int)
    (h : parse_hostname (u ++ s) = parse_hostname u) :
    (classify_link u ts).score ≤ (classify_link (u ++ s) ts).score := by
  rw [score_eq_optDelta, score_eq_optDelta]
  refine max_le_max (le_refl 0) (min_le_min (le_refl 100) ?_)
  simp only [ruleResults, h, List.map_cons, List.map_nil, List.sum_cons, List.sum_nil]
  refine add_le_add (le_refl _) ?_
  refine add_le_add (rule_port_mono u s) ?_
  refine add_le_add (le_refl _) ?_
  refine add_le_add (le_refl _) ?_
  refine add_le_add (le_refl _) ?_
  refine add_le_add (le_refl _) ?_
  refine add_le_add (le_refl _) ?_
  refine add_le_add (le_refl _) ?_
  refine add_le_add (rule_shortener_mono u s) ?_
  exact add_le_add (rule_keyword_mono u s) (le_refl 0)

/-- C2 counterexample: on the URL of the claim the engine scores 80 at
level HIGH, not 68 at level MEDIUM, because rule 4b also fires (the
subdomain secure-login-verify carries two hyphens) and rule 7 matches
the keyword verify, which precedes login in PHISH_KEYWORDS. -/
theorem c2_counterexample :
    (classify_link ("https://secure-login-verify.trycloudflare.com") 0).score = 80 ∧
      (classify_link ("https://secure-login-verify.trycloudflare.com") 0).level = ("HIGH") ∧
      ¬((classify_link ("https://secure-login-verify.trycloudflare.com") 0).score = 68 ∧
        (classify_link ("https://secure-login-verify.trycloudflare.com") 0).level =
          ("MEDIUM")) := by
  refine ⟨rfl, rfl, ?_⟩
  intro hk
  exact absurd hk (by decide)

/-- C2 amended: classify_link on
https://secure-login-verify.trycloudflare.com fires rules 3 (ephemeral
hosting, +35), 4b (hyphen-heavy subdomain, +12), 4c (token-rich
subdomain, +18) and 7 (phishing keyword verify, +15), producing score
80 and level HIGH. -/
theorem c2_amended (ts : Int) :
    (classify_link ("https://secure-login-verify.trycloudflare.com") ts).reasons =
        [("Hosted on ephemeral/third-party platform: trycloudflare.com"),
         ("Multiple hyphens in subdomain (common in phishing hosts)"),
         ("Multi-word / token-rich subdomain (likely not a normal brand hostname)"),
         ("Contains phishing-related keyword: \x27verify\x27")] ∧
      (classify_link ("https://secure-login-verify.trycloudflare.com") ts).score = 80 ∧
      (classify_link ("https://secure-login-verify.trycloudflare.com") ts).level = ("HIGH") :=
  ⟨rfl, rfl, rfl⟩

/-- C3: classify_link is a total function of its input and the model is
exception free by construction; when the structural URL parse fails
(the Except.error branch of the urlparse model, raised as ValueError by
CPython on a bracket mismatch), the hostname degrades to the
split-before-first-slash fallback instead of propagating the failure. -/
theorem c3_parse_failure_fallback (url : String) (ts : Int) (e : String)
    (hfail : urlsplitHostname (withSchemeOf (pyStrip url)).data = Except.error e)
    (hne : pyStrip url ≠ ("")) :
    (classify_link url ts).host =
      pyLower (String.mk ((pyStrip url).data.takeWhile (fun c => !(c == '/')))) := by
  have hhost : (classify_link url ts).host = parse_hostname url := rfl
  rw [hhost, parse_hostname]
  rw [if_neg hne, hfail]

/-- C3 witness: on http briefly followed by an unmatched bracket, the
urlparse model fails and the host is the lowercased text before the
first slash. -/
theorem c3_witness :
    urlsplitHostname (withSchemeOf (pyStrip ("http://[abc"))).data =
        Except.error ("Invalid IPv6 URL") ∧
      pyStrip ("http://[abc") ≠ ("") ∧
      (classify_link ("http://[abc") 0).host = ("http:") :=
  ⟨rfl, by decide, c3_parse_failure_fallback ("http://[abc") 0 ("Invalid IPv6 URL") rfl
    (by decide)⟩

/-- C5: classify_link on https://paypal.com fires no rule at all, in
particular not rule 4d, while on
https://paypal.security-check.net/login exactly rule 4d (brand token
paypal in the subdomain, second level domain label security-check) and
rule 7 (keyword login) fire. -/
theorem c5_brand_impersonation (ts : Int) :
    (classify_link ("https://paypal.com") ts).reasons = [] ∧
      (classify_link ("https://paypal.security-check.net/login") ts).reasons =
        [("Brand impersonation detected: \x27paypal\x27 appears in subdomain while parent domain is not \x27paypal\x27"),
         ("Contains phishing-related keyword: \x27login\x27")] :=
  ⟨rfl, rfl⟩

/-- C6: classify_link on the empty string returns the empty host, score
zero, level SAFE and no reasons. -/
theorem c6_empty_input (ts : Int) :
    (classify_link ("") ts).host = ("") ∧ (classify_link ("") ts).score = 0 ∧
      (classify_link ("") ts).level = ("SAFE") ∧ (classify_link ("") ts).reasons = [] :=
  ⟨rfl, rfl, rfl, rfl⟩

/-- C9: the check_link endpoint strips the url field before the
emptiness check: a missing, empty or whitespace-only field yields the
400 missing url error, and whenever a classification result is
returned, classify_link was called on the stripped, provably nonblank
value. -/
theorem c9_endpoint_blank_rejected (urlField : Option String) (ts : Int) :
    (pyStrip (urlField.getD ("")) = ("") →
        api_check_link urlField ts = ApiResponse.clientError ("missing url") 400) ∧
      (∀ r, api_check_link urlField ts = ApiResponse.ok r →
        pyStrip (urlField.getD ("")) ≠ ("") ∧
          r = classify_link (pyStrip (urlField.getD (""))) ts) := by
  constructor
  · intro hb
    rw [api_check_link]
    rw [if_pos hb]
  · intro r hr
    rw [api_check_link] at hr
    by_cases hb : pyStrip (urlField.getD ("")) = ("")
    · rw [if_pos hb] at hr
      exact absurd hr (by simp)
    · rw [if_neg hb] at hr
      injection hr with h1
      exact ⟨hb, h1.symm⟩

/-- C8 witness: appending the path /verify to a clean URL keeps the
parsed hostname and can only raise the score. -/
theorem c8_witness :
    parse_hostname (("https://example.com") ++ ("/verify")) =
        parse_hostname ("https://example.com") ∧
      (classify_link ("https://example.com") 0).score ≤
        (classify_link (("https://example.com") ++ ("/verify")) 0).score :=
  ⟨rfl, c8_score_monotone_append ("https://example.com") ("/verify") 0 rfl⟩

/-- C9 witness: a whitespace-only url field is rejected with the 400
missing url error. -/
theorem c9_witness :
    pyStrip ((some ("   ")).getD ("")) = ("") ∧
      api_check_link (some ("   ")) 0 = ApiResponse.clientError ("missing url") 400 :=
  ⟨rfl, (c9_endpoint_blank_rejected (some ("   ")) 0).1 rfl⟩

example : parse_hostname ("https://secure-login-verify.trycloudflare.com") =
    ("secure-login-verify.trycloudflare.com") := rfl

example : parse_hostname ("") = ("") := rfl

example : parse_hostname ("http://[abc") = ("http:") := rfl

example : parse_hostname ("https://paypal.security-check.net/login") =
    ("paypal.security-check.net") := rfl

example : IP_RE_search ("192.168.1.10") = true := rfl

example : IP_RE_search ("paypal.com") = false := rfl

example : (classify_link ("https://secure-login-verify.trycloudflare.com") 0).score = 80 := rfl

example : (classify_link ("https://secure-login-verify.trycloudflare.com") 0).level = ("HIGH") := rfl

example : (classify_link ("") 0).score = 0 := rfl

example : (classify_link ("https://paypal.com") 0).reasons = [] := rfl

example : (classify_link ("http://192.168.1.10/verify") 0).score = 55 := rfl

example : (classify_link ("https://bit.ly/abc123") 0).score = 30 := rfl
